import Mathlib

/-!
Verification of the intent-classification, tool-call generation, tool-call
validation and proactive instruction-matching pipeline of the jump-ai-agent
repository.

The TypeScript sources are shallowly embedded: JavaScript strings become Lean
`String`, JSON values become the inductive `JVal`, JavaScript numbers become
`Rat`, and each relevant source function becomes a Lean function of the same
name.  Regular expressions from the source are transliterated into a small
regex AST (`RX`) executed by a fuelled backtracking engine with JavaScript
semantics (leftmost match, ordered alternation, greedy and lazy repetition,
capture groups).
-/

namespace JumpAgent

/-! ## JavaScript string primitives -/

/-- Does `pat` occur at the head of `s`? -/
def listStartsWith : List Char → List Char → Bool
  | [], _ => true
  | _ :: _, [] => false
  | p :: ps, c :: cs => p = c && listStartsWith ps cs

/-- Does `pat` occur anywhere in `s`? -/
def listContainsSub (pat : List Char) : List Char → Bool
  | [] => pat.isEmpty
  | c :: cs => listStartsWith pat (c :: cs) || listContainsSub pat cs

/-- JavaScript `String.prototype.includes`: substring containment. -/
def strIncludes (s pat : String) : Bool :=
  listContainsSub pat.toList s.toList

/-- JavaScript `\s` (the whitespace characters occurring in this code base). -/
def isSpaceJS (c : Char) : Bool :=
  c = ' ' || c = '\t' || c = '\n' || c = '\r' || c = '\x0b' || c = '\x0c'

/-- JavaScript `str.toLowerCase()` (list-based so that it reduces in the
kernel, unlike `String.map`). -/
def jsToLower (s : String) : String :=
  String.mk (s.toList.map Char.toLower)

/-- JavaScript `str.trim()`. -/
def jsTrim (s : String) : String :=
  String.mk (((s.toList.dropWhile isSpaceJS).reverse.dropWhile isSpaceJS).reverse)

/-- JavaScript `arr.join(' ')`. -/
def joinWithSpace (xs : List String) : String :=
  String.mk (List.intercalate [' '] (xs.map String.toList))

/-- Case-insensitive substring containment (used to model `/token/i.test(s)`
for regexes that are plain literals). -/
def strIncludesCI (s pat : String) : Bool :=
  strIncludes (jsToLower s) (jsToLower pat)

/-- JavaScript `str.split(sep)` for a single-character separator. -/
def splitOnChar (sep : Char) : List Char → List (List Char)
  | [] => [[]]
  | c :: cs =>
    let r := splitOnChar sep cs
    if c = sep then [] :: r
    else
      match r with
      | h :: t => (c :: h) :: t
      | [] => [[c]]

/-- Embeds `str.split(sep)` returning strings. -/
def jsSplit (s : String) (sep : Char) : List String :=
  (splitOnChar sep s.toList).map (fun l => String.mk l)

/-! ## JavaScript values

`JVal` models the JSON-like values flowing through the pipeline.  `jundef`
models JavaScript `undefined` (absent object fields); `JSON.parse` never
produces it. -/

inductive JVal where
  | jnull : JVal
  | jundef : JVal
  | jbool : Bool → JVal
  | jnum : Rat → JVal
  | jstr : String → JVal
  | jarr : List JVal → JVal
  | jobj : List (String × JVal) → JVal

open JVal

/-- JavaScript truthiness. -/
def jtruthy : JVal → Bool
  | jnull => false
  | jundef => false
  | jbool b => b
  | jnum q => q ≠ 0
  | jstr s => s ≠ ""
  | jarr _ => true
  | jobj _ => true

/-- Property access `v[key]` on an object (last duplicate key wins, as in the
result of `JSON.parse`); `none` models `undefined`. -/
def jget : JVal → String → Option JVal
  | jobj fs, key => (fs.reverse.find? (fun p => p.1 = key)).map Prod.snd
  | _, _ => none

/-- Property access defaulting to `undefined`. -/
def jgetD (v : JVal) (key : String) : JVal :=
  (jget v key).getD jundef

/-- Embeds `typeof v === 'string'`. -/
def jisString : JVal → Bool
  | jstr _ => true
  | _ => false

/-- Embeds `typeof v === 'number'`. -/
def jisNumber : JVal → Bool
  | jnum _ => true
  | _ => false

/-- Embeds `Array.isArray(v)`. -/
def jisArray : JVal → Bool
  | jarr _ => true
  | _ => false

/-- String content of a value; fields the pipeline reads with string methods
are strings in every claim considered here. -/
def jstrVal : JVal → String
  | jstr s => s
  | _ => ""

/-! ## A small JSON reader (models `JSON.parse`) -/

def jsonWs (c : Char) : Bool :=
  c = ' ' || c = '\t' || c = '\n' || c = '\r'

def skipJsonWs : List Char → List Char
  | [] => []
  | c :: cs => if jsonWs c then skipJsonWs cs else c :: cs

def digitsToNat (ds : List Char) : Nat :=
  ds.foldl (fun n c => 10 * n + (c.toNat - 48)) 0

/-- Longest digit prefix. -/
def spanDigits : List Char → (List Char × List Char)
  | [] => ([], [])
  | c :: cs =>
    if c.isDigit then
      let (d, r) := spanDigits cs
      (c :: d, r)
    else ([], c :: cs)

/-- Read a JSON string body (after the opening quote), handling the common
escapes. -/
def readJsonString : Nat → List Char → Option (String × List Char)
  | 0, _ => none
  | _, [] => none
  | fuel + 1, c :: cs =>
    if c = '"' then some ("", cs)
    else if c = '\\' then
      match cs with
      | [] => none
      | e :: cs' =>
        let esc : Option Char :=
          if e = '"' then some '"'
          else if e = '\\' then some '\\'
          else if e = '/' then some '/'
          else if e = 'n' then some '\n'
          else if e = 't' then some '\t'
          else if e = 'r' then some '\r'
          else none
        match esc with
        | none => none
        | some ch =>
          match readJsonString fuel cs' with
          | some (rest, rem) => some (String.mk (ch :: rest.toList), rem)
          | none => none
    else
      match readJsonString fuel cs with
      | some (rest, rem) => some (String.mk (c :: rest.toList), rem)
      | none => none

/-- Exact rational division (via `mkRat`, which reduces in the kernel,
unlike the irreducible `Rat.div`). -/
def jsDiv (a b : Rat) : Rat :=
  if b.num < 0 then mkRat (-(a.num * (b.den : Int))) (a.den * b.num.natAbs)
  else mkRat (a.num * (b.den : Int)) (a.den * b.num.natAbs)

/-- Assemble a parsed number from its mantissa digits, the number of
fraction digits, and an optional exponent suffix (integer arithmetic plus
one `mkRat`, so that it reduces in the kernel). -/
def readJsonNumberExp (neg : Bool) (mantissa : List Char) (fracLen : Nat)
    (cs : List Char) : Option (Rat × List Char) :=
  let m : Nat := digitsToNat mantissa
  let signed : Int := if neg then -(m : Int) else (m : Int)
  let noExp : Option (Rat × List Char) := some (mkRat signed ((10 : Nat) ^ fracLen), cs)
  match cs with
  | e :: r =>
    if e = 'e' || e = 'E' then
      let (esign, r₁) :=
        match r with
        | '-' :: r' => (true, r')
        | '+' :: r' => (false, r')
        | _ => (false, r)
      let (ed, r₂) := spanDigits r₁
      if ed = [] then noExp
      else
        let en := digitsToNat ed
        if esign then some (mkRat signed ((10 : Nat) ^ fracLen * (10 : Nat) ^ en), r₂)
        else some (mkRat (signed * ((10 : Nat) ^ en : Nat)) ((10 : Nat) ^ fracLen), r₂)
    else noExp
  | [] => noExp

/-- Read a JSON number. -/
def readJsonNumber (cs : List Char) : Option (Rat × List Char) :=
  let (neg, cs₁) :=
    match cs with
    | '-' :: r => (true, r)
    | _ => (false, cs)
  let (ip, cs₂) := spanDigits cs₁
  if ip = [] then none
  else
    match cs₂ with
    | '.' :: r =>
      let (fp, r') := spanDigits r
      if fp = [] then none
      else readJsonNumberExp neg (ip ++ fp) fp.length r'
    | _ => readJsonNumberExp neg ip 0 cs₂

/-- Reader mode: one value, the members of an object, or the elements of an
array (the Boolean is true before the first member/element). -/
inductive JMode where
  | val : JMode
  | objm : Bool → JMode
  | arrm : Bool → JMode

/-- Fuelled JSON reader (a single function so that it reduces in the
kernel). -/
def readJson : Nat → JMode → List Char → Option (JVal × List Char)
  | 0, _, _ => none
  | fuel + 1, JMode.val, cs =>
    (match skipJsonWs cs with
    | [] => none
    | c :: rest =>
      if c = '"' then
        match readJsonString (fuel + 1) rest with
        | some (s, rem) => some (jstr s, rem)
        | none => none
      else if c = '\x7b' then
        readJson fuel (JMode.objm true) (skipJsonWs rest)
      else if c = '[' then
        readJson fuel (JMode.arrm true) (skipJsonWs rest)
      else if c = 't' then
        match rest with
        | 'r' :: 'u' :: 'e' :: rem => some (jbool true, rem)
        | _ => none
      else if c = 'f' then
        match rest with
        | 'a' :: 'l' :: 's' :: 'e' :: rem => some (jbool false, rem)
        | _ => none
      else if c = 'n' then
        match rest with
        | 'u' :: 'l' :: 'l' :: rem => some (jnull, rem)
        | _ => none
      else
        match readJsonNumber (c :: rest) with
        | some (q, rem) => some (jnum q, rem)
        | none => none)
  | fuel + 1, JMode.objm first, cs =>
    (match skipJsonWs cs with
    | [] => none
    | c :: rest =>
      if c = '\x7d' then some (jobj [], rest)
      else
        let cs' :=
          if first then c :: rest
          else if c = ',' then skipJsonWs rest
          else []
        match cs' with
        | '"' :: keyRest =>
          match readJsonString (fuel + 1) keyRest with
          | none => none
          | some (key, afterKey) =>
            match skipJsonWs afterKey with
            | ':' :: afterColon =>
              match readJson fuel JMode.val afterColon with
              | none => none
              | some (v, afterVal) =>
                match readJson fuel (JMode.objm false) afterVal with
                | some (jobj fs, rem) => some (jobj ((key, v) :: fs), rem)
                | _ => none
            | _ => none
        | _ => none)
  | fuel + 1, JMode.arrm first, cs =>
    (match skipJsonWs cs with
    | [] => none
    | c :: rest =>
      if c = ']' then some (jarr [], rest)
      else
        let cs' :=
          if first then c :: rest
          else if c = ',' then skipJsonWs rest
          else []
        match cs' with
        | [] => none
        | _ =>
          match readJson fuel JMode.val cs' with
          | none => none
          | some (v, afterVal) =>
            match readJson fuel (JMode.arrm false) afterVal with
            | some (jarr es, rem) => some (jarr (v :: es), rem)
            | _ => none)

/-- Model of `JSON.parse`: the whole input, up to surrounding whitespace,
must be one JSON value. -/
def jsonParse (s : String) : Option JVal :=
  match readJson (s.length + 1) JMode.val s.toList with
  | some (v, rem) => if skipJsonWs rem = [] then some v else none
  | none => none

/-! ## A small regex engine with JavaScript semantics

The source relies on JavaScript `RegExp`.  Each regex literal of the source
is transliterated into the AST `RX`; `rxRun` is a fuelled backtracking
matcher implementing ordered alternation, greedy and lazy repetition and
capture groups, i.e. the JavaScript (leftmost-first) match policy. -/

inductive RX where
  | eps : RX
  | cls : (Char → Bool) → RX
  | cat : RX → RX → RX
  | alt : RX → RX → RX
  | star : Bool → RX → RX
  | grp : Nat → RX → RX
  | eos : RX

/-- Captures: group number paired with the captured text; the most recent
binding of a group is at the head. -/
def Caps := List (Nat × String)

/-- Backtracking matcher in continuation-passing style.  `star` stops
iterating when an iteration consumes nothing, as JavaScript engines do. -/
def rxRun : Nat → RX → List Char → Caps →
    (List Char → Caps → Option (List Char × Caps)) → Option (List Char × Caps)
  | 0, _, _, _, _ => none
  | fuel + 1, rx, rest, caps, k =>
    match rx with
    | .eps => k rest caps
    | .cls f =>
      match rest with
      | [] => none
      | c :: cs => if f c then k cs caps else none
    | .cat a b => rxRun fuel a rest caps (fun r c => rxRun fuel b r c k)
    | .alt a b =>
      match rxRun fuel a rest caps k with
      | some res => some res
      | none => rxRun fuel b rest caps k
    | .star greedy a =>
      if greedy then
        match rxRun fuel a rest caps (fun r c =>
            if r.length = rest.length then none
            else rxRun fuel (.star true a) r c k) with
        | some res => some res
        | none => k rest caps
      else
        match k rest caps with
        | some res => some res
        | none =>
          rxRun fuel a rest caps (fun r c =>
            if r.length = rest.length then none
            else rxRun fuel (.star false a) r c k)
    | .grp n a =>
      rxRun fuel a rest caps (fun r c =>
        k r ((n, String.mk (rest.take (rest.length - r.length))) :: c))
    | .eos =>
      match rest with
      | [] => k rest caps
      | _ => none

/-- Try to match `rx` at the start of `s`. -/
def rxMatchAt (fuel : Nat) (rx : RX) (s : List Char) : Option (List Char × Caps) :=
  rxRun fuel rx s [] (fun r c => some (r, c))

/-- Leftmost match: try successive start positions.  On success returns the
matched text, the captures and the input remaining after the match. -/
def rxSearchFrom (fuel : Nat) (rx : RX) : List Char → Option (List Char × Caps × List Char)
  | [] =>
    match rxMatchAt fuel rx [] with
    | some (rest, caps) => some ([], caps, rest)
    | none => none
  | c :: cs =>
    match rxMatchAt fuel rx (c :: cs) with
    | some (rest, caps) =>
      some ((c :: cs).take ((c :: cs).length - rest.length), caps, rest)
    | none => rxSearchFrom fuel rx cs

/-- Fuel that comfortably bounds the backtracking depth for the patterns in
this development. -/
def rxFuel (n : Nat) : Nat := 100 * (n + 10)

/-- JavaScript `s.match(re)` without the `g` flag: leftmost match plus
captures. -/
def jsMatch (rx : RX) (s : String) : Option (String × Caps) :=
  match rxSearchFrom (rxFuel s.length) rx s.toList with
  | some (m, caps, _) => some (String.mk m, caps)
  | none => none

/-- JavaScript `re.test(s)`. -/
def jsTest (rx : RX) (s : String) : Bool :=
  (jsMatch rx s).isSome

/-- Captured text of group `n` (`none` models an `undefined` group). -/
def capGet (caps : Caps) (n : Nat) : Option String :=
  (caps.find? (fun p => p.1 = n)).map Prod.snd

/-- JavaScript `s.match(re)` with the `g` flag: the list of full-match
strings, scanning left to right without overlap. -/
def jsMatchAllAux (fuel : Nat) (rx : RX) : Nat → List Char → List String
  | 0, _ => []
  | bound + 1, s =>
    match rxSearchFrom fuel rx s with
    | none => []
    | some (m, _, rest) =>
      match m with
      | [] =>
        match rest with
        | [] => []
        | _ :: t => jsMatchAllAux fuel rx bound t
      | _ => String.mk m :: jsMatchAllAux fuel rx bound rest

def jsMatchAll (rx : RX) (s : String) : List String :=
  jsMatchAllAux (rxFuel s.length) rx (s.length + 1) s.toList

/-! ### Regex building blocks -/

/-- JavaScript `\w`. -/
def isWordJS (c : Char) : Bool :=
  c.isAlpha || c.isDigit || c = '_'

def rchar (c : Char) : RX := .cls (fun x => x = c)

/-- Case-insensitive single character (for `/i` regexes). -/
def rcharCI (c : Char) : RX := .cls (fun x => x.toLower = c.toLower)

/-- Literal string, case-sensitive. -/
def rlit (s : String) : RX :=
  s.toList.foldr (fun c r => RX.cat (rchar c) r) RX.eps

/-- Literal string under `/i`. -/
def rlitCI (s : String) : RX :=
  s.toList.foldr (fun c r => RX.cat (rcharCI c) r) RX.eps

def rcats (rs : List RX) : RX := rs.foldr RX.cat RX.eps

def ralts : List RX → RX
  | [] => RX.cls (fun _ => false)
  | [r] => r
  | r :: rs => RX.alt r (ralts rs)

/-- Embeds `(?:r)?` (greedy option). -/
def ropt (r : RX) : RX := RX.alt r RX.eps

/-- Embeds `r*` (greedy). -/
def rstar (r : RX) : RX := RX.star true r

/-- Embeds `r*?` (lazy). -/
def rstarL (r : RX) : RX := RX.star false r

/-- Embeds `r+` (greedy). -/
def rplus (r : RX) : RX := RX.cat r (RX.star true r)

/-- Embeds `r+?` (lazy). -/
def rplusL (r : RX) : RX := RX.cat r (RX.star false r)

/-- JavaScript `.` (anything but a newline, no `s` flag anywhere in the
source). -/
def rdot : RX := RX.cls (fun c => c ≠ '\n')

/-- Embeds `[\s\S]` (truly any character). -/
def rany : RX := RX.cls (fun _ => true)

/-- Embeds `\s`. -/
def rsp : RX := RX.cls isSpaceJS

/-- Embeds `\d`. -/
def rdigit : RX := RX.cls Char.isDigit

/-- Embeds `\w`. -/
def rword : RX := RX.cls isWordJS

/-- Embeds `\d{1,2}`. -/
def rdigit12 : RX := RX.cat rdigit (ropt rdigit)

/-- Embeds `[A-Za-z\s]`. -/
def ralphaSp : RX := RX.cls (fun c => c.isAlpha || isSpaceJS c)

/-- Embeds `[a-z]` under `/i`. -/
def ralphaCI : RX := RX.cls Char.isAlpha

/-! ## Data model -/

/-- Result of `analyzeQueryIntent` (src/unnamed/part_002). -/
structure Intent where
  type : String
  confidence : Rat
  keywords : List String
  isContactQuery : Bool
  contactQueryType : Option String
  isConditionalInstruction : Bool

/-- A structured tool invocation `\x7b name, parameters \x7d` produced by the
parser. -/
structure ToolCall where
  name : String
  parameters : JVal

/-- Result of `validateSingleToolCall`. -/
structure ValidationResult where
  valid : Bool
  reason : Option String := none

/-! ## Intent Classifier (`analyzeQueryIntent`, src/unnamed/part_002) -/

/-- The fixed category-to-keyword table. -/
def intentKeywords : List (String × List String) :=
  [ ("question", ["who", "what", "when", "where", "why", "how", "which", "?"]),
    ("action", ["schedule", "send", "create", "add", "update", "delete", "call", "email", "book"]),
    ("search", ["find", "search", "lookup", "show", "list", "get", "all", "contacts", "display", "view"]),
    ("analysis", ["analyze", "compare", "review", "summarize", "report"]),
    ("creative", ["write", "compose", "draft", "generate"]),
    ("meeting", ["meeting", "schedule", "calendar", "appointment", "book", "call", "meet"]),
    ("instruction", ["when", "if", "whenever", "every time", "please always", "from now on", "in the future", "going forward"]),
    ("notes", ["notes", "note", "history", "details", "information about", "tell me about", "what do you know about"]),
    ("all_contacts_notes", ["all contacts notes", "show all contacts notes", "contacts with notes", "all notes", "everyone notes"]) ]

/-- Add `n` to the score of category `key` (models `scores.key += n`). -/
def addScore (scores : List (String × Nat)) (key : String) (n : Nat) : List (String × Nat) :=
  scores.map (fun p => if p.1 = key then (p.1, p.2 + n) else p)

/-- The six `conditionalPatterns` regexes. -/
def conditionalPatterns : List RX :=
  [ rcats [rlitCI "when", rplus rsp, rlitCI "someone", rplus rsp, rlitCI "emails"],
    rcats [rlitCI "if", rplus rsp, rstar rdot, rplus rsp, rlitCI "emails"],
    rcats [rlitCI "whenever", rplus rsp, rstar rdot, rplus rsp, rlitCI "contact"],
    rcats [rlitCI "every", rplus rsp, rlitCI "time", rplus rsp, rstar rdot, rplus rsp, rlitCI "happens"],
    rcats [rlitCI "please", rplus rsp, RX.grp 1 (ralts [rlitCI "always", rlitCI "create", rlitCI "add"])],
    rcats [rlitCI "from", rplus rsp, rlitCI "now", rplus rsp, rlitCI "on"] ]

/-- The `contactQueries` phrase list. -/
def contactQueries : List String :=
  [ "all contacts", "show contacts", "list contacts", "get contacts",
    "display contacts", "view contacts", "show all contacts", "list all contacts",
    "get all contacts", "display all contacts", "view all contacts",
    "contacts list", "contact list", "my contacts", "hubspot contacts",
    "show me contacts", "show me all contacts", "list my contacts",
    "get my contacts", "display my contacts", "view my contacts" ]

/-- The `contactNoteQueries` phrase list. -/
def contactNoteQueries : List String :=
  [ "show notes for", "get notes for", "notes for", "contact notes",
    "tell me about", "what do you know about", "information about",
    "history for", "details for", "show details for" ]

/-- The `allContactsNotesQueries` phrase list inside `analyzeQueryIntent`. -/
def allContactsNotesQueriesIntent : List String :=
  [ "all contacts notes", "show all contacts notes", "all contacts with notes",
    "contacts with notes", "show me all notes", "get all notes",
    "list all contacts notes", "display all contacts notes",
    "show all notes for contacts", "get notes for all contacts" ]

/-- Embeds `meetingWithRegex`.  The word boundaries around the two-word name are
encoded explicitly: the name must be preceded by a non-word non-newline
character (consumed in JavaScript by the preceding `.*`) and followed by a
non-word character or the end of the input.  The regex is only ever used as
a boolean test in the source, so consuming the boundary characters is
immaterial. -/
def meetingWithRegex : RX :=
  rcats [ RX.grp 1 (ralts [rlitCI "meet", rlitCI "schedule", rlitCI "book"]),
          rstar rdot, rlitCI "with", rstar rdot,
          RX.cls (fun c => c ≠ '\n' && !isWordJS c),
          RX.grp 2 (rcats [rplus ralphaCI, rchar ' ', rplus ralphaCI]),
          ralts [RX.cls (fun c => !isWordJS c), RX.eos] ]

/-- Word count used for the confidence: `queryLower.split(' ').length`. -/
def queryWordCount (queryLower : String) : Nat :=
  (jsSplit queryLower ' ').length

/-- The score table of `analyzeQueryIntent` after all boosts (lines
528-600 of src/unnamed/part_002): keyword-hit counts per category, plus +5
to `instruction` on a conditional pattern, +5 to `search` on a contact
phrase, +3 to `notes` on a contact-note phrase, +5 to `all_contacts_notes`
on an all-contacts-notes phrase and +3 to `meeting` on the
`meetingWithRegex` match. -/
def boostedScores (query : String) : List (String × Nat) :=
  let queryLower := jsToLower query
  let scores0 := intentKeywords.map
    (fun p => (p.1, (p.2.filter (fun k => strIncludes queryLower k)).length))
  let scores1 :=
    if conditionalPatterns.any (fun p => jsTest p query) then addScore scores0 "instruction" 5
    else scores0
  let scores2 :=
    if contactQueries.any (fun phrase => strIncludes queryLower phrase) then
      addScore scores1 "search" 5
    else scores1
  let scores3 :=
    if contactNoteQueries.any (fun phrase => strIncludes queryLower phrase) then
      addScore scores2 "notes" 3
    else scores2
  let scores4 :=
    if allContactsNotesQueriesIntent.any (fun phrase => strIncludes queryLower phrase) then
      addScore scores3 "all_contacts_notes" 5
    else scores3
  if jsTest meetingWithRegex query then addScore scores4 "meeting" 3 else scores4

/-- Embeds `Math.max(...Object.values(scores))`. -/
def maxScoreOf (query : String) : Nat :=
  ((boostedScores query).map Prod.snd).foldr Nat.max 0

/-- Embeds `analyzeQueryIntent` (src/unnamed/part_002, lines 515-618).  A total
function: the source never throws. -/
def analyzeQueryIntent (query : String) : Intent :=
  let queryLower := jsToLower query
  let isContactQuery := contactQueries.any (fun phrase => strIncludes queryLower phrase)
  let maxScore := maxScoreOf query
  let intentType :=
    (((boostedScores query).find? (fun p => p.2 = maxScore)).map Prod.fst).getD "general"
  { type := intentType
    confidence :=
      if maxScore > 0 then jsDiv (maxScore : Rat) (queryWordCount queryLower : Rat)
      else mkRat 1 10
    keywords := ((intentKeywords.find? (fun p => p.1 = intentType)).map Prod.snd).getD []
    isContactQuery := isContactQuery
    contactQueryType := if isContactQuery then some "get_all_contacts" else none
    isConditionalInstruction := intentType = "instruction" }

/-- The raw (pre-boost) keyword score of one category, for stating claims
about queries with no keyword hits. -/
def rawScore (query : String) (category : String) : Nat :=
  match intentKeywords.find? (fun p => p.1 = category) with
  | some (_, kws) => (kws.filter (fun k => strIncludes (jsToLower query) k)).length
  | none => 0

/-! ## Response-to-Tool-Call Parser (`parseEnhancedToolCalls`,
src/unnamed/part_002, lines 872-1199) -/

/-- Stage-1 leakage regex
`/\x7b\s*"tool":\s*"([^"]+)"\s*,\s*"parameters":\s*(\x7b[^\x7d]*\x7d)/`. -/
def toolResponseRegex : RX :=
  rcats [ rchar '\x7b', rstar rsp, rlit "\"tool\":", rstar rsp, rchar '"',
          RX.grp 1 (rplus (RX.cls (fun c => c ≠ '"'))), rchar '"',
          rstar rsp, rchar ',', rstar rsp, rlit "\"parameters\":", rstar rsp,
          RX.grp 2 (rcats [rchar '\x7b', rstar (RX.cls (fun c => c ≠ '\x7d')), rchar '\x7d']) ]

/-- Fenced-block regex `/```json\n([\s\S]*?)\n```/g`. -/
def jsonBlockRegex : RX :=
  rcats [ rlit "```json\n", RX.grp 1 (rstarL rany), rlit "\n```" ]

/-- Embeds `block.replace(/```json\n|\n```/g, '')`. -/
def removeFenceTokens : Nat → List Char → List Char
  | 0, s => s
  | bound + 1, s =>
    match s with
    | [] => []
    | c :: cs =>
      if listStartsWith "```json\n".toList s then removeFenceTokens bound (s.drop 8)
      else if listStartsWith "\n```".toList s then removeFenceTokens bound (s.drop 4)
      else c :: removeFenceTokens bound cs

/-- First inline pattern
`/\x7b\s*"tool":\s*"([^"]+)"\s*,\s*"parameters":\s*\x7b[^\x7d]*\x7d\s*\x7d/g`. -/
def inlineRegex1 : RX :=
  rcats [ rchar '\x7b', rstar rsp, rlit "\"tool\":", rstar rsp, rchar '"',
          RX.grp 1 (rplus (RX.cls (fun c => c ≠ '"'))), rchar '"',
          rstar rsp, rchar ',', rstar rsp, rlit "\"parameters\":", rstar rsp,
          rchar '\x7b', rstar (RX.cls (fun c => c ≠ '\x7d')), rchar '\x7d',
          rstar rsp, rchar '\x7d' ]

/-- Second inline pattern
`/\x7b\s*"tool":\s*"([^"]+)"\s*,\s*"parameters":\s*\x7b[\s\S]*?\x7d\s*\x7d/g`. -/
def inlineRegex2 : RX :=
  rcats [ rchar '\x7b', rstar rsp, rlit "\"tool\":", rstar rsp, rchar '"',
          RX.grp 1 (rplus (RX.cls (fun c => c ≠ '"'))), rchar '"',
          rstar rsp, rchar ',', rstar rsp, rlit "\"parameters\":", rstar rsp,
          rchar '\x7b', rstarL rany, rchar '\x7d',
          rstar rsp, rchar '\x7d' ]

/-- Embeds `/(?:send.*email.*to|email.*to|message.*to)\s+([A-Za-z\s]+?)(?:\s+about|\s+regarding|$)/i`. -/
def recipientRegex : RX :=
  rcats [ ralts [ rcats [rlitCI "send", rstar rdot, rlitCI "email", rstar rdot, rlitCI "to"],
                  rcats [rlitCI "email", rstar rdot, rlitCI "to"],
                  rcats [rlitCI "message", rstar rdot, rlitCI "to"] ],
          rplus rsp, RX.grp 1 (rplusL ralphaSp),
          ralts [ rcats [rplus rsp, rlitCI "about"],
                  rcats [rplus rsp, rlitCI "regarding"], RX.eos ] ]

/-- Embeds `/(?:about|regarding)\s+(.+?)(?:\s*$)/i`. -/
def subjectRegex : RX :=
  rcats [ ralts [rlitCI "about", rlitCI "regarding"], rplus rsp,
          RX.grp 1 (rplusL rdot), rstar rsp, RX.eos ]

/-- Embeds `/Dear\s+\w+,[\s\S]*?Best regards/i`. -/
def emailContentRegex1 : RX :=
  rcats [ rlitCI "Dear", rplus rsp, rplus rword, rchar ',', rstarL rany,
          rlitCI "Best regards" ]

/-- Embeds `/Subject:.*?\n\n([\s\S]*?)(?:\n\nBest|$)/i`. -/
def emailContentRegex2 : RX :=
  rcats [ rlitCI "Subject:", rstarL rdot, rlit "\n\n", RX.grp 1 (rstarL rany),
          ralts [rlitCI "\n\nBest", RX.eos] ]

/-- Embeds `/Here is the email:\s*\n\n([\s\S]*?)(?:\n\n|$)/i`. -/
def emailContentRegex3 : RX :=
  rcats [ rlitCI "Here is the email:", rstar rsp, rlit "\n\n",
          RX.grp 1 (rstarL rany), ralts [rlit "\n\n", RX.eos] ]

/-- Embeds `emailBody.replace(/^Subject:.*?\n\n/i, '')` (anchored replace). -/
def stripSubjectPrefix (s : String) : String :=
  match rxMatchAt (rxFuel s.length) (rcats [rlitCI "Subject:", rstarL rdot, rlit "\n\n"]) s.toList with
  | some (rest, _) => String.mk rest
  | none => s

/-- Availability date regex `/(?:on\s+)?(\d\x7b1,2\x7d(?:st|nd|rd|th)?\s+\w+(?:\s+\d\x7b4\x7d)?)/i`. -/
def availDateRegex : RX :=
  rcats [ ropt (rcats [rlitCI "on", rplus rsp]),
          RX.grp 1 (rcats [ rdigit12,
                            ropt (ralts [rlitCI "st", rlitCI "nd", rlitCI "rd", rlitCI "th"]),
                            rplus rsp, rplus rword,
                            ropt (rcats [rplus rsp, rdigit, rdigit, rdigit, rdigit]) ]) ]

/-- Embeds `/(\d\x7b4\x7d-\d\x7b2\x7d-\d\x7b2\x7d)/i`. -/
def isoDateRegex : RX :=
  RX.grp 1 (rcats [rdigit, rdigit, rdigit, rdigit, rchar '-', rdigit, rdigit,
                   rchar '-', rdigit, rdigit])

/-- Embeds `/(today|tomorrow|this week|next week)/i`. -/
def relDateRegex : RX :=
  RX.grp 1 (ralts [rlitCI "today", rlitCI "tomorrow", rlitCI "this week", rlitCI "next week"])

/-- Meeting contact regex
`/(?:schedule.*meeting.*with|meet.*with|meeting.*with)\s+([A-Za-z\s]+?)(?:\s+on|\s+at|\s+for|$)/i`. -/
def meetContactRegex : RX :=
  rcats [ ralts [ rcats [rlitCI "schedule", rstar rdot, rlitCI "meeting", rstar rdot, rlitCI "with"],
                  rcats [rlitCI "meet", rstar rdot, rlitCI "with"],
                  rcats [rlitCI "meeting", rstar rdot, rlitCI "with"] ],
          rplus rsp, RX.grp 1 (rplusL ralphaSp),
          ralts [ rcats [rplus rsp, rlitCI "on"], rcats [rplus rsp, rlitCI "at"],
                  rcats [rplus rsp, rlitCI "for"], RX.eos ] ]

/-- Meeting date regex
`/(?:on\s+|for\s+)?(\d\x7b1,2\x7d(?:st|nd|rd|th)?\s+\w+(?:\s+\d\x7b4\x7d)?)/i`. -/
def meetingDateRegex : RX :=
  rcats [ ropt (ralts [rcats [rlitCI "on", rplus rsp], rcats [rlitCI "for", rplus rsp]]),
          RX.grp 1 (rcats [ rdigit12,
                            ropt (ralts [rlitCI "st", rlitCI "nd", rlitCI "rd", rlitCI "th"]),
                            rplus rsp, rplus rword,
                            ropt (rcats [rplus rsp, rdigit, rdigit, rdigit, rdigit]) ]) ]

/-- Time regex `/(?:at\s+)?(\d\x7b1,2\x7d(?::\d\x7b2\x7d)?\s*(?:am|pm)?)/i`. -/
def timeRegex : RX :=
  rcats [ ropt (rcats [rlitCI "at", rplus rsp]),
          RX.grp 1 (rcats [ rdigit12, ropt (rcats [rchar ':', rdigit, rdigit]),
                            rstar rsp, ropt (ralts [rlitCI "am", rlitCI "pm"]) ]) ]

/-- Fake-meeting contact regex
`/(?:schedule.*meeting.*with|meet.*with)\s+([A-Za-z\s]+?)(?:\s+on|\s+at|$)/i`. -/
def fakeContactRegex : RX :=
  rcats [ ralts [ rcats [rlitCI "schedule", rstar rdot, rlitCI "meeting", rstar rdot, rlitCI "with"],
                  rcats [rlitCI "meet", rstar rdot, rlitCI "with"] ],
          rplus rsp, RX.grp 1 (rplusL ralphaSp),
          ralts [ rcats [rplus rsp, rlitCI "on"], rcats [rplus rsp, rlitCI "at"], RX.eos ] ]

/-- The `allContactsNotesQueries` phrase list inside the parser (a superset
of the one inside the intent classifier). -/
def allContactsNotesQueriesParser : List String :=
  [ "all contacts notes", "show all contacts notes", "all contacts with notes",
    "contacts with notes", "show me all notes", "get all notes",
    "list all contacts notes", "display all contacts notes",
    "show all notes for contacts", "get notes for all contacts",
    "show contacts and their notes", "contacts and notes",
    "show all my contacts and their notes", "can you show all my contacts and their notes" ]

/-- Stage 4 of the parser: the compensating heuristics, run only when the
earlier stages produced no call and both `query` and `intent` were supplied
(`toolCalls.length === 0 && query && intent`).  `toolCalls` is empty at
entry. -/
def parseHeuristicToolCalls (response q : String) (it : Intent) : List ToolCall :=
  let toolCalls : List ToolCall := []
  let toolCalls :=
    if it.isContactQuery then
      toolCalls ++ [⟨"get_all_contacts", jobj [("limit", jnum 100), ("offset", jnum 0)]⟩]
    else toolCalls
  let toolCalls :=
    if it.type = "all_contacts_notes" then
      toolCalls ++ [⟨"get_all_contacts_with_notes",
        jobj [("limit", jnum 50),
              ("includeContactsWithoutNotes", jbool (strIncludes (jsToLower q) "all contacts"))]⟩]
    else toolCalls
  let queryLower := jsToLower q
  let claimsToolExecution :=
    strIncludes response "I\x27ve executed" ||
    strIncludes response "I have executed" ||
    strIncludes response "executed the" ||
    strIncludes response "tool to schedule" ||
    strIncludes response "meeting has been" ||
    strIncludes response "successfully scheduled" ||
    strIncludes response "I\x27ve sent" ||
    strIncludes response "email has been sent" ||
    strIncludes response "Event created and invitation sent" ||
    strIncludes response "Here is the email" ||
    strIncludes response "event has been created"
  let isEmailQuery :=
    strIncludes queryLower "send" &&
      (strIncludes queryLower "email" || strIncludes queryLower "message")
  let toolCalls :=
    if claimsToolExecution && isEmailQuery then
      match jsMatch recipientRegex q with
      | none => toolCalls
      | some (_, caps) =>
        match capGet caps 1 with
        | none => toolCalls
        | some recipientRaw =>
          let recipientName := jsTrim recipientRaw
          let subject :=
            match jsMatch subjectRegex q with
            | some (_, c2) => jsTrim ((capGet c2 1).getD "")
            | none => "Follow-up"
          let emailBody0 := "Please see the message below."
          let emailContentMatch : Option (String × Caps) :=
            match jsMatch emailContentRegex1 response with
            | some r => some r
            | none =>
              match jsMatch emailContentRegex2 response with
              | some r => some r
              | none => jsMatch emailContentRegex3 response
          let emailBody :=
            match emailContentMatch with
            | some (full, c3) =>
              let eb := if full ≠ "" then full else ((capGet c3 1).getD emailBody0)
              jsTrim (stripSubjectPrefix eb)
            | none => emailBody0
          toolCalls ++ [⟨"send_email",
            jobj [("contactName", jstr recipientName), ("subject", jstr subject),
                  ("body", jstr emailBody)]⟩]
    else toolCalls
  let isAvailabilityQuery :=
    strIncludes queryLower "availability" || strIncludes queryLower "available" ||
    (strIncludes queryLower "calendar" &&
      (strIncludes queryLower "check" || strIncludes queryLower "show")) ||
    strIncludes queryLower "free time" ||
    (strIncludes queryLower "schedule" && strIncludes queryLower "on")
  let toolCalls :=
    if claimsToolExecution && isAvailabilityQuery then
      let dateMatch : Option (String × Caps) :=
        match jsMatch availDateRegex q with
        | some r => some r
        | none =>
          match jsMatch isoDateRegex q with
          | some r => some r
          | none => jsMatch relDateRegex q
      let dateParam :=
        match dateMatch with
        | some (_, caps) => (capGet caps 1).getD ""
        | none => ""
      toolCalls ++ [⟨"get_available_times", jobj [("date", jstr dateParam), ("duration", jnum 60)]⟩]
    else toolCalls
  let isMeetingSchedulingQuery :=
    (strIncludes queryLower "schedule" && strIncludes queryLower "meeting") ||
    strIncludes queryLower "book meeting" || strIncludes queryLower "set up meeting"
  let toolCalls :=
    if claimsToolExecution && isMeetingSchedulingQuery then
      match jsMatch meetContactRegex q with
      | none => toolCalls
      | some (_, caps) =>
        match capGet caps 1 with
        | none => toolCalls
        | some contactRaw =>
          let contactName := jsTrim contactRaw
          let params0 := [("contactName", jstr contactName),
                          ("title", jstr ("Meeting with " ++ contactName)),
                          ("description", jstr "Scheduled meeting")]
          let params1 :=
            match jsMatch meetingDateRegex q with
            | some (_, dc) => params0 ++ [("date", jstr ((capGet dc 1).getD ""))]
            | none => params0
          let params2 :=
            match jsMatch timeRegex q with
            | some (_, tc) => params1 ++ [("time", jstr ((capGet tc 1).getD ""))]
            | none => params1
          toolCalls ++ [⟨"schedule_meeting_with_contact", jobj params2⟩]
    else toolCalls
  let isFakeMeetingResponse :=
    strIncludes response "I\x27ve scheduled" || strIncludes response "Meeting with" ||
    strIncludes response "Date:" || strIncludes response "Time:"
  let toolCalls :=
    if isFakeMeetingResponse && strIncludes queryLower "schedule" &&
        strIncludes queryLower "meeting" then
      match jsMatch fakeContactRegex q with
      | none => toolCalls
      | some (_, caps) =>
        match capGet caps 1 with
        | none => toolCalls
        | some contactRaw =>
          let contactName := jsTrim contactRaw
          toolCalls ++ [⟨"schedule_meeting_with_contact",
            jobj [("contactName", jstr contactName),
                  ("title", jstr ("Meeting with " ++ contactName)),
                  ("description", jstr "Scheduled meeting")]⟩]
    else toolCalls
  let isAllContactsNotesQuery :=
    allContactsNotesQueriesParser.any (fun phrase => strIncludes queryLower phrase)
  let toolCalls :=
    if isAllContactsNotesQuery &&
        !(toolCalls.any (fun c => c.name = "get_all_contacts_with_notes")) then
      toolCalls ++ [⟨"get_all_contacts_with_notes",
        jobj [("limit", jnum 50),
              ("includeContactsWithoutNotes", jbool (strIncludes queryLower "all contacts"))]⟩]
    else toolCalls
  toolCalls

/-- Embeds `parseEnhancedToolCalls(response, intent?, query?)`
(src/unnamed/part_002, lines 872-1199).

Stage 1 extracts the `"tool"`/`"parameters"` sub-object when the response
contains both a `"tool":` and a `"response":` key (expected-output leakage).
Stage 2 scans fenced ```json blocks.  Stage 3 scans inline tool-call objects
only when no call was found yet.  Stage 4 (`parseHeuristicToolCalls`) runs the
compensating heuristics only when no call was found and both `query` and
`intent` are supplied.  In the source, a non-string `parsed.tool` would be
pushed as-is; here the name of such a call is modelled as `""`, which no
claim exercises. -/
def parseEnhancedToolCalls (response : String) (intent : Option Intent)
    (query : Option String) : List ToolCall :=
  let isInstructionalResponse :=
    strIncludes response "I\x27ll use" || strIncludes response "I\x27ll retrieve" ||
    strIncludes response "Please wait" || strIncludes response "Here\x27s the tool call:" ||
    strIncludes response "tool call:" || strIncludes response "I\x27ll execute"
  let toolCalls : List ToolCall := []
  let toolCalls :=
    if strIncludes response "\"tool\":" && strIncludes response "\"response\":" then
      match jsMatch toolResponseRegex response with
      | some (_, caps) =>
        match capGet caps 1, capGet caps 2 with
        | some toolName, some paramsSrc =>
          match jsonParse paramsSrc with
          | some parameters => toolCalls ++ [⟨toolName, parameters⟩]
          | none => toolCalls
        | _, _ => toolCalls
      | none => toolCalls
    else toolCalls
  let jsonBlocks := jsMatchAll jsonBlockRegex response
  let toolCalls := jsonBlocks.foldl (fun acc block =>
    let cleanJson := jsTrim (String.mk (removeFenceTokens block.length block.toList))
    match jsonParse cleanJson with
    | none => acc
    | some parsed =>
      if isInstructionalResponse &&
          (strIncludes response "Here\x27s the tool call:" ||
           strIncludes response "I\x27ll use" ||
           strIncludes response "tool call:") then acc
      else if jtruthy (jgetD parsed "tool") && jtruthy (jgetD parsed "parameters") then
        acc ++ [⟨jstrVal (jgetD parsed "tool"), jgetD parsed "parameters"⟩]
      else acc) toolCalls
  let toolCalls :=
    if toolCalls.length = 0 then
      [inlineRegex1, inlineRegex2].foldl (fun acc pattern =>
        (jsMatchAll pattern response).foldl (fun acc2 m =>
          if strIncludes m "\"response\"" then acc2
          else if isInstructionalResponse &&
              (strIncludes response "Here\x27s the tool call:" ||
               strIncludes response "I\x27ll use") then acc2
          else
            match jsonParse m with
            | none => acc2
            | some parsed =>
              if jtruthy (jgetD parsed "tool") && jtruthy (jgetD parsed "parameters") then
                acc2 ++ [⟨jstrVal (jgetD parsed "tool"), jgetD parsed "parameters"⟩]
              else acc2) acc) toolCalls
    else toolCalls
  match query, intent with
  | some q, some it =>
    if toolCalls.length = 0 && q ≠ "" then parseHeuristicToolCalls response q it
    else toolCalls
  | _, _ => toolCalls

/-! ## Tool-Call Validator (`validateSingleToolCall` / `validateToolCalls`,
src/unnamed/part_002, lines 1201-1419) -/

/-- The `criticalPlaceholders` patterns; each is a plain case-insensitive
literal. -/
def criticalPlaceholders : List String :=
  ["[Email Address]", "[First Name]", "[Last Name]", "[Company Name]",
   "placeholder", "example.com"]

/-- The string a JavaScript regex sees for `parameters.to || ''`; in every
claim considered here the field is a string or absent. -/
def jsToFieldString (v : JVal) : String :=
  if jtruthy v then jstrVal v else ""

/-- Numeric content of a value (only read under a `typeof === 'number'`
guard). -/
def jnumVal : JVal → Rat
  | jnum q => q
  | _ => 0

/-- Embeds `validateSingleToolCall(toolCall)` (src/unnamed/part_002, lines
1228-1419).  Returns the validity verdict.  The in-place rewrite of
`parameters.body` for `send_email` (the `[Your Name]`/`[topic]`
auto-replacement) never changes the verdict and is not modelled; the
`try/catch` around `new Date(...)` can never reject because the `Date`
constructor does not throw. -/
def validateSingleToolCall (toolCall : ToolCall) : ValidationResult :=
  let name := toolCall.name
  let parameters := toolCall.parameters
  if name = "get_all_contacts" || name = "get_all_contacts_with_notes" then
    if jtruthy (jgetD parameters "includeProperties") &&
        !jisArray (jgetD parameters "includeProperties") then
      ⟨false, some "includeProperties must be an array"⟩
    else if jtruthy (jgetD parameters "limit") &&
        (!jisNumber (jgetD parameters "limit") || jnumVal (jgetD parameters "limit") < 1) then
      ⟨false, some "limit must be a positive number"⟩
    else if jtruthy (jgetD parameters "offset") &&
        (!jisNumber (jgetD parameters "offset") || jnumVal (jgetD parameters "offset") < 0) then
      ⟨false, some "offset must be a non-negative number"⟩
    else ⟨true, none⟩
  else
    let hasCriticalPlaceholdersInTo :=
      criticalPlaceholders.any
        (fun t => strIncludesCI (jsToFieldString (jgetD parameters "to")) t)
    if hasCriticalPlaceholdersInTo then
      ⟨false, some "Email recipient contains placeholder values"⟩
    else
      match name with
      | "send_email" =>
        if !jtruthy (jgetD parameters "to") && !jtruthy (jgetD parameters "contactName") then
          ⟨false, some "Missing email address or contact name"⟩
        else if jtruthy (jgetD parameters "to") &&
            !strIncludes (jstrVal (jgetD parameters "to")) "@" then
          ⟨false, some "Invalid email address format"⟩
        else if jtruthy (jgetD parameters "contactName") &&
            !jisString (jgetD parameters "contactName") then
          ⟨false, some "Contact name must be a string"⟩
        else if !jtruthy (jgetD parameters "subject") ||
            jsTrim (jstrVal (jgetD parameters "subject")) = "" then
          ⟨false, some "Missing email subject"⟩
        else if !jtruthy (jgetD parameters "body") ||
            jsTrim (jstrVal (jgetD parameters "body")) = "" then
          ⟨false, some "Missing email body"⟩
        else ⟨true, none⟩
      | "create_calendar_event" =>
        if !jtruthy (jgetD parameters "title") ||
            jsTrim (jstrVal (jgetD parameters "title")) = "" then
          ⟨false, some "Missing event title"⟩
        else ⟨true, none⟩
      | "schedule_meeting_with_contact" =>
        if !jtruthy (jgetD parameters "contactEmail") &&
            !jtruthy (jgetD parameters "contactName") then
          ⟨false, some "Missing contact identifier (contactEmail or contactName)"⟩
        else if jtruthy (jgetD parameters "contactEmail") &&
            !strIncludes (jstrVal (jgetD parameters "contactEmail")) "@" then
          ⟨false, some "Invalid contact email format"⟩
        else if jtruthy (jgetD parameters "contactName") &&
            !jisString (jgetD parameters "contactName") then
          ⟨false, some "Contact name must be a string"⟩
        else if jtruthy (jgetD parameters "date") && jtruthy (jgetD parameters "time") &&
            !jisString (jgetD parameters "date") then
          ⟨false, some "Date must be a string"⟩
        else ⟨true, none⟩
      | "add_contact_note" =>
        if !jtruthy (jgetD parameters "contactId") && !jtruthy (jgetD parameters "email") &&
            !jtruthy (jgetD parameters "contactName") then
          ⟨false, some "Missing contact identifier (contactId, email, or contactName)"⟩
        else if !jtruthy (jgetD parameters "note") ||
            jsTrim (jstrVal (jgetD parameters "note")) = "" then
          ⟨false, some "Missing note content"⟩
        else ⟨true, none⟩
      | "search_contacts" =>
        if !jtruthy (jgetD parameters "query") && !jtruthy (jgetD parameters "email") &&
            !jtruthy (jgetD parameters "name") then
          ⟨false, some "Missing search criteria (query, email, or name)"⟩
        else ⟨true, none⟩
      | "create_contact" =>
        if !jtruthy (jgetD parameters "email") ||
            !strIncludes (jstrVal (jgetD parameters "email")) "@" then
          ⟨false, some "Invalid or missing email address"⟩
        else if strIncludes (jstrVal (jgetD parameters "email")) "[" ||
            strIncludes (jstrVal (jgetD parameters "email")) "]" then
          ⟨false, some "Email contains placeholder brackets"⟩
        else if strIncludes (jstrVal (jgetD parameters "email")) "example.com" then
          ⟨false, some "Email contains example domain"⟩
        else if !jtruthy (jgetD parameters "firstName") &&
            !jtruthy (jgetD parameters "lastName") then
          ⟨false, some "Missing both first and last name"⟩
        else if (jtruthy (jgetD parameters "firstName") &&
                  (strIncludes (jstrVal (jgetD parameters "firstName")) "[" ||
                   strIncludes (jstrVal (jgetD parameters "firstName")) "]")) ||
                (jtruthy (jgetD parameters "lastName") &&
                  (strIncludes (jstrVal (jgetD parameters "lastName")) "[" ||
                   strIncludes (jstrVal (jgetD parameters "lastName")) "]")) then
          ⟨false, some "Names contain placeholder brackets"⟩
        else ⟨true, none⟩
      | _ => ⟨true, none⟩

/-- Embeds `validateToolCalls(toolCalls, relevantDocs)`: keeps the valid calls in
order, dropping invalid ones (the `relevantDocs` argument is unused by
`validateSingleToolCall`). -/
def validateToolCalls (toolCalls : List ToolCall) : List ToolCall :=
  toolCalls.filter (fun c => (validateSingleToolCall c).valid)

/-! ## Pipeline compositions -/

/-- The pure core of `generateRAGResponse` (src/unnamed/part_002, lines
432-512): its `toolCalls` output is the parse of the LLM response with the
query intent, passed through `validateToolCalls`. -/
def generateRAGResponseToolCalls (response query : String) : List ToolCall :=
  validateToolCalls
    (parseEnhancedToolCalls response (some (analyzeQueryIntent query)) (some query))

/-- The pure core of `analyzeProactiveAction` (src/unnamed/part_002, lines
1743-1784): given the user's active instruction texts and the LLM response,
it returns the first parsed tool call, or `none` when there are no
instructions or the response contains `NO_ACTION`.  No validation step
appears here. -/
def analyzeProactiveAction (instructions : List String) (response : String) :
    Option ToolCall :=
  if instructions.length = 0 then none
  else if strIncludes response "NO_ACTION" then none
  else (parseEnhancedToolCalls response none none).head?

/-- The tool calls that `handleGmailMessage`
(src/src/app/api/webhooks/route.ts, lines 77-94) hands to its
`executeProactiveAction` executor: the result of `analyzeProactiveAction`,
executed whenever it is non-null, with no validation in between. -/
def handleGmailMessageProactiveCalls (instructions : List String)
    (llmResponse : String) : List ToolCall :=
  match analyzeProactiveAction instructions llmResponse with
  | some action => [action]
  | none => []

/-! ## Proactive Instruction Matcher (src/unnamed/part_003) -/

/-- A stored ongoing instruction as seen by the matcher (the row fetched
with `isActive: true`). -/
structure StoredInstruction where
  instruction : String

/-- The normalized event shape every webhook collapses into. -/
structure ProactiveContext where
  event : String
  service : String
  data : JVal
  userId : String

/-- One instruction scored against one event. -/
structure InstructionMatch where
  instruction : StoredInstruction
  confidence : Rat
  extractedParams : List (String × JVal)

/-- Optional chaining access `v.k1?.k2`. -/
def jget2 (v : JVal) (k1 k2 : String) : JVal :=
  jgetD (jgetD v k1) k2

/-- JavaScript `a || b`. -/
def jor (a b : JVal) : JVal :=
  if jtruthy a then a else b

/-- The fixed pattern library of `analyzeInstructionMatch`
(src/unnamed/part_003, lines 89-135): name, regex, required event, required
service. -/
def proactivePatterns : List (String × RX × String × String) :=
  [ ("emailNotInHubspot",
     rcats [ rlitCI "when", rplus rsp,
             ralts [rlitCI "someone", rlitCI "anyone", rlitCI "a person"], rplus rsp,
             rlitCI "email", ropt (rlitCI "s"), rplus rsp,
             ralts [rlitCI "me", rlitCI "us"], rstar rdot,
             ralts [ rcats [rlitCI "not", rplus rsp, rlitCI "in"],
                     rcats [rlitCI "not", rplus rsp, rlitCI "already", rplus rsp, rlitCI "in"],
                     rlitCI "doesn\x27t exist in" ],
             rplus rsp, rlitCI "hubspot" ],
     "new_email", "gmail"),
    ("contactCreated",
     rcats [ rlitCI "when", rplus rsp, ralts [rlitCI "i", rlitCI "we"], rplus rsp,
             rlitCI "create", rplus rsp, ropt (rcats [rlitCI "a", rplus rsp]),
             rlitCI "contact", rplus rsp, rlitCI "in", rplus rsp, rlitCI "hubspot",
             rstar rdot, ralts [rlitCI "send", rlitCI "email"] ],
     "contact_created", "hubspot"),
    ("calendarEvent",
     rcats [ rlitCI "when", rplus rsp, ralts [rlitCI "i", rlitCI "we"], rplus rsp,
             ralts [rlitCI "add", rlitCI "create", rlitCI "schedule"], rplus rsp,
             ropt (rcats [rlitCI "a", ropt (rlitCI "n"), rplus rsp]),
             ralts [rlitCI "event", rlitCI "meeting", rlitCI "appointment"],
             rstar rdot, ralts [rlitCI "send", rlitCI "email", rlitCI "notify"] ],
     "event_created", "calendar"),
    ("emailSent",
     rcats [ rlitCI "when", rplus rsp, ralts [rlitCI "i", rlitCI "we"], rplus rsp,
             rlitCI "send", rplus rsp, ropt (rcats [rlitCI "a", ropt (rlitCI "n"), rplus rsp]),
             rlitCI "email", rstar rdot,
             ralts [rlitCI "add", rlitCI "create", rlitCI "log"], rplus rsp,
             ropt (rcats [rlitCI "a", rplus rsp]), rlitCI "note" ],
     "email_sent", "gmail"),
    ("meetingScheduled",
     rcats [ rlitCI "when", rplus rsp, ralts [rlitCI "i", rlitCI "we"], rplus rsp,
             rlitCI "schedule", rplus rsp, ropt (rcats [rlitCI "a", rplus rsp]),
             rlitCI "meeting", rstar rdot,
             ralts [rlitCI "send", rlitCI "email", rlitCI "notify", rlitCI "remind"] ],
     "meeting_scheduled", "calendar"),
    ("noteAdded",
     rcats [ rlitCI "when", rplus rsp, ralts [rlitCI "i", rlitCI "we"], rplus rsp,
             rlitCI "add", rplus rsp, ropt (rcats [rlitCI "a", rplus rsp]),
             rlitCI "note", rstar rdot,
             ralts [rlitCI "send", rlitCI "email", rlitCI "notify", rlitCI "follow"] ],
     "note_added", "hubspot"),
    ("noAvailability",
     rcats [ rlitCI "when", rplus rsp, ralts [rlitCI "i", rlitCI "we"], rplus rsp,
             ropt (rcats [rlitCI "have", rplus rsp]), rlitCI "no", rplus rsp,
             rlitCI "availability", rstar rdot,
             ralts [rlitCI "suggest", rlitCI "recommend", rlitCI "offer"] ],
     "no_availability_found", "calendar"),
    ("contactEmailSent",
     rcats [ rlitCI "when", rplus rsp, ralts [rlitCI "i", rlitCI "we"], rplus rsp,
             rlitCI "email", rplus rsp, ropt (rcats [rlitCI "a", rplus rsp]),
             rlitCI "contact", rstar rdot,
             ralts [rlitCI "log", rlitCI "track", rlitCI "record"] ],
     "email_sent", "gmail"),
    ("meetingWithContact",
     rcats [ rlitCI "when", rplus rsp, ralts [rlitCI "i", rlitCI "we"], rplus rsp,
             rlitCI "meet", rplus rsp, rlitCI "with", rplus rsp,
             ropt (rcats [rlitCI "a", rplus rsp]), rlitCI "contact", rstar rdot,
             ralts [rlitCI "follow", rlitCI "send", rlitCI "email"] ],
     "meeting_scheduled", "calendar") ]

/-- Embeds `/with\s+(?:a\s+)?note/i`. -/
def withNoteRegex : RX :=
  rcats [rlitCI "with", rplus rsp, ropt (rcats [rlitCI "a", rplus rsp]), rlitCI "note"]

/-- Embeds `extractEmailToContactParams` (src/unnamed/part_003, lines 166-182). -/
def extractEmailToContactParams (instruction : String) (emailData : JVal) :
    List (String × JVal) :=
  let senderName := jgetD emailData "senderName"
  let firstName : JVal :=
    match senderName with
    | jstr s =>
      match jsSplit s ' ' with
      | n :: _ => if n = "" then jnull else jstr n
      | [] => jnull
    | _ => jnull
  let lastName : JVal :=
    match senderName with
    | jstr s =>
      let rest := joinWithSpace ((jsSplit s ' ').drop 1)
      if rest = "" then jnull else jstr rest
    | _ => jnull
  let params :=
    [ ("action", jstr "create_contact_from_email"),
      ("email", jgetD emailData "senderEmail"),
      ("firstName", firstName),
      ("lastName", lastName),
      ("emailSubject", jgetD emailData "subject"),
      ("emailContent", jor (jgetD emailData "snippet") (jgetD emailData "content")) ]
  if jsTest withNoteRegex instruction then
    params ++
      [ ("addNote", jbool true),
        ("noteContent", jstr ("Email received: \"" ++
          jsToFieldString (jgetD emailData "subject") ++ "\"\n" ++
          jsToFieldString (jgetD emailData "snippet"))) ]
  else params

/-- Embeds `/thank\s+you\s+for\s+(.+?)(?:\.|$)/i`. -/
def thankYouRegex : RX :=
  rcats [ rlitCI "thank", rplus rsp, rlitCI "you", rplus rsp, rlitCI "for", rplus rsp,
          RX.grp 1 (rplusL rdot), ralts [rchar '.', RX.eos] ]

/-- Embeds `extractContactCreatedParams` (src/unnamed/part_003, lines 184-198). -/
def extractContactCreatedParams (instruction : String) (contactData : JVal) :
    List (String × JVal) :=
  let contactName :=
    jsTrim (jsToFieldString (jgetD contactData "firstname") ++ " " ++
      jsToFieldString (jgetD contactData "lastname"))
  let params :=
    [ ("action", jstr "send_welcome_email"),
      ("contactEmail", jgetD contactData "email"),
      ("contactName", jstr contactName) ]
  match jsMatch thankYouRegex instruction with
  | some (_, caps) =>
    params ++
      [ ("emailSubject", jstr "Thank you for connecting!"),
        ("emailBody", jstr ("Dear " ++
          (if contactName ≠ "" then contactName else "Valued Client") ++
          ",\n\nThank you for " ++ ((capGet caps 1).getD "") ++
          ".\n\nI look forward to working with you.\n\nBest regards")) ]
  | none => params

/-- Embeds `extractCalendarEventParams` (src/unnamed/part_003, lines 200-209). -/
def extractCalendarEventParams (_instruction : String) (eventData : JVal) :
    List (String × JVal) :=
  [ ("action", jstr "notify_attendees"),
    ("eventTitle", jgetD eventData "summary"),
    ("eventStart", jor (jget2 eventData "start" "dateTime") (jget2 eventData "start" "date")),
    ("eventEnd", jor (jget2 eventData "end" "dateTime") (jget2 eventData "end" "date")),
    ("attendees", jor (jgetD eventData "attendees") (jarr [])),
    ("description", jgetD eventData "description") ]

/-- Embeds `analyzeInstructionMatch` (src/unnamed/part_003, lines 83-164).  The
loop over the pattern table overwrites `bestMatch` on every matching entry,
so the last matching pattern wins; pattern families without a dedicated
extractor leave `extractedParams` at its previous value. -/
def analyzeInstructionMatch (context : ProactiveContext)
    (instruction : StoredInstruction) : InstructionMatch :=
  let instructionText := jsToLower instruction.instruction
  let bestMatch := proactivePatterns.foldl
    (fun (best : Rat × List (String × JVal)) entry =>
      let (ptype, pat, reqEvent, reqService) := entry
      if jsTest pat instructionText then
        if context.event = reqEvent && context.service = reqService then
          let extracted :=
            if ptype = "emailNotInHubspot" then
              extractEmailToContactParams instructionText context.data
            else if ptype = "contactCreated" then
              extractContactCreatedParams instructionText context.data
            else if ptype = "calendarEvent" then
              extractCalendarEventParams instructionText context.data
            else best.2
          (mkRat 9 10, extracted)
        else best
      else best)
    ((0 : Rat), ([] : List (String × JVal)))
  { instruction := instruction
    confidence := bestMatch.1
    extractedParams := bestMatch.2 }

/-- Stable insertion for the descending-confidence sort (JavaScript
`sort((a, b) => b.confidence - a.confidence)` is stable). -/
def insertByConfDesc (m : InstructionMatch) :
    List InstructionMatch → List InstructionMatch
  | [] => [m]
  | x :: xs =>
    if x.confidence < m.confidence then m :: x :: xs
    else x :: insertByConfDesc m xs

def sortByConfDesc (l : List InstructionMatch) : List InstructionMatch :=
  l.foldl (fun acc m => insertByConfDesc m acc) []

/-- Embeds `analyzeEventAgainstInstructions` (src/unnamed/part_003, lines 67-81):
score every instruction, keep those with positive confidence, sort by
descending confidence. -/
def analyzeEventAgainstInstructions (context : ProactiveContext)
    (instructions : List StoredInstruction) : List InstructionMatch :=
  sortByConfDesc
    ((instructions.map (analyzeInstructionMatch context)).filter
      (fun m => m.confidence > 0))

/-- The dispatch loop of `handleProactiveEvent` (src/unnamed/part_003,
lines 41-46).  `dispatch m = false` models `executeProactiveAction`
throwing; that function rethrows every internal failure and the loop has no
per-dispatch catch, so the exception propagates to the event-level catch and
the remaining matches are skipped.  The result is the list of matches on
which the executor was invoked, paired with whether an error escaped the
loop. -/
def dispatchMatches (dispatch : InstructionMatch → Bool) :
    List InstructionMatch → List InstructionMatch × Bool
  | [] => ([], false)
  | m :: rest =>
    if m.confidence > mkRat 7 10 then
      if dispatch m then
        let (l, e) := dispatchMatches dispatch rest
        (m :: l, e)
      else ([m], true)
    else dispatchMatches dispatch rest

/-- Embeds `handleProactiveEvent` (src/unnamed/part_003, lines 25-65), restricted
to its observable dispatch behaviour: which matches reach
`executeProactiveAction`, given an oracle for whether each dispatch
succeeds. -/
def handleProactiveEvent (context : ProactiveContext)
    (instructions : List StoredInstruction)
    (dispatch : InstructionMatch → Bool) : List InstructionMatch × Bool :=
  dispatchMatches dispatch (analyzeEventAgainstInstructions context instructions)

/-! ## Query route branching (src/src/app/api/query/route.ts, POST) -/

/-- Route-level meeting-scheduling detection (query/route.ts, lines
107-112). -/
def routeIsMeetingSchedulingQuery (query : String) : Bool :=
  jsTest (rcats [ rlitCI "schedule", rplus rsp,
                  ropt (RX.grp 1 (rcats [rlitCI "a", rplus rsp])),
                  rlitCI "meeting", rplus rsp, rlitCI "with" ]) query ||
  jsTest (rcats [ rlitCI "meet", rplus rsp, rlitCI "with", rstar rdot, rplus rsp,
                  RX.grp 1 (ralts [rlitCI "on", rlitCI "at"]) ]) query ||
  jsTest (rcats [ rlitCI "book", rplus rsp,
                  ropt (RX.grp 1 (rcats [rlitCI "a", rplus rsp])),
                  rlitCI "meeting", rplus rsp, rlitCI "with" ]) query ||
  (strIncludes (jsToLower query) "schedule" && strIncludes (jsToLower query) "with" &&
    (strIncludes (jsToLower query) "on" || strIncludes (jsToLower query) "at"))

/-- Phrases of `isContactsWithNotesQuery` (query/route.ts, lines 132-138). -/
def routeContactsWithNotesPhrases : List String :=
  [ "show contacts and their notes", "contacts and notes", "all contacts notes",
    "show all contacts notes", "contacts with notes", "show me all notes",
    "list all contacts notes", "display all contacts notes",
    "show all notes for contacts", "get notes for all contacts",
    "show all my contacts and their notes", "can you show all my contacts and their notes" ]

/-- Phrases of `isRegularContactQuery` (query/route.ts, lines 141-148). -/
def routeRegularContactPhrases : List String :=
  [ "show contacts", "list contacts", "get contacts", "all contacts",
    "show all contacts", "list all contacts", "get all contacts",
    "display contacts", "view contacts", "my contacts", "hubspot contacts",
    "show me contacts", "show me all contacts", "list my contacts",
    "get my contacts", "display my contacts", "view my contacts",
    "show my contacts" ]

/-- The externally visible write effects of one `POST /api/query` request
(query/route.ts, lines 97-403) on the success path of
`generateRAGResponse`. -/
structure QueryRouteEffects where
  storedInstructions : List (String × Bool)
  executedToolCalls : List ToolCall
  directExecutions : List ToolCall

/-- Branch structure of the POST handler: the meeting-scheduling fast path
executes the validated RAG tool calls; the two contact fast paths invoke
their executor directly; otherwise, when the classified intent is a
conditional instruction the handler persists the raw query as an active
`OngoingInstruction` and clears `response.toolCalls` before the execution
loop, so nothing is executed; otherwise the validated RAG tool calls are
executed sequentially. -/
def postQueryRoute (query ragResponse : String) : QueryRouteEffects :=
  let queryLower := jsToLower query
  let isMeetingSchedulingQuery := routeIsMeetingSchedulingQuery query
  let isContactsWithNotesQuery :=
    routeContactsWithNotesPhrases.any (fun p => strIncludes queryLower p)
  let isRegularContactQuery :=
    !isContactsWithNotesQuery && !isMeetingSchedulingQuery &&
      routeRegularContactPhrases.any (fun p => strIncludes queryLower p)
  if isMeetingSchedulingQuery then
    { storedInstructions := []
      executedToolCalls := generateRAGResponseToolCalls ragResponse query
      directExecutions := [] }
  else if isContactsWithNotesQuery then
    { storedInstructions := []
      executedToolCalls := []
      directExecutions := [⟨"get_all_contacts_with_notes",
        jobj [("limit", jnum 50),
              ("includeContactsWithoutNotes", jbool (strIncludes queryLower "all contacts"))]⟩] }
  else if isRegularContactQuery then
    { storedInstructions := []
      executedToolCalls := []
      directExecutions := [⟨"get_all_contacts", jobj [("limit", jnum 100), ("offset", jnum 0)]⟩] }
  else
    let intent := analyzeQueryIntent query
    if intent.isConditionalInstruction then
      { storedInstructions := [(query, true)]
        executedToolCalls := []
        directExecutions := [] }
    else
      { storedInstructions := []
        executedToolCalls := generateRAGResponseToolCalls ragResponse query
        directExecutions := [] }

/-! ## Concrete inputs referenced by the claims -/

/-- The tool names known to `validateSingleToolCall` (the cases of its
switch). -/
def knownToolNames : List String :=
  ["send_email", "create_calendar_event", "schedule_meeting_with_contact",
   "add_contact_note", "search_contacts", "create_contact",
   "get_all_contacts", "get_all_contacts_with_notes"]

/-- An LLM response whose fenced block carries a tool call with placeholder
data. -/
def webhookLeakResponse : String :=
  "```json\n\x7b\"tool\": \"create_contact\", \"parameters\": \x7b\"email\": \"[Email Address]\", \"firstName\": \"[First Name]\"\x7d\x7d\n```"

def webhookInstructionTexts : List String :=
  ["When someone emails me who is not in HubSpot, create a contact"]

/-- The call parsed out of `webhookLeakResponse`; `validateSingleToolCall`
rejects it. -/
def invalidContactCall : ToolCall :=
  ⟨"create_contact", jobj [("email", jstr "[Email Address]"), ("firstName", jstr "[First Name]")]⟩

/-- A response carrying one well-formed fenced tool call. -/
def ragWitnessResponse : String :=
  "```json\n\x7b\"tool\": \"get_all_contacts\", \"parameters\": \x7b\"limit\": 5\x7d\x7d\n```"

def ragWitnessQuery : String := "hello there"

/-- The `get_all_contacts` call with `limit` 5 that several inputs parse
to. -/
def getAllContactsLimit5Call : ToolCall :=
  ⟨"get_all_contacts", jobj [("limit", jnum 5)]⟩

/-- A fenced response-leakage block: `tool`, `parameters` and a `response`
key inside one ```json block. -/
def leakedFencedResponse : String :=
  "```json\n\x7b\"tool\": \"get_all_contacts\", \"parameters\": \x7b\"limit\": 5\x7d, \"response\": \"Here are your contacts\"\x7d\n```"

/-- The same leakage without a fence. -/
def leakedPlainResponse : String :=
  "\x7b\"tool\": \"get_all_contacts\", \"parameters\": \x7b\"limit\": 5\x7d, \"response\": \"done\"\x7d"

/-- A fenced block with only a `response` key. -/
def responseOnlyFencedResponse : String :=
  "```json\n\x7b\"response\": \"all done\"\x7d\n```"

/-- The event of spec testable property 7. -/
def newEmailContext : ProactiveContext :=
  { event := "new_email", service := "gmail",
    data := jobj [("senderEmail", jstr "x@y.com"), ("senderName", jstr "X Y")],
    userId := "u1" }

def hubspotInstruction : StoredInstruction :=
  ⟨"When someone emails me who is not in HubSpot, create a contact"⟩

def instructionA : StoredInstruction :=
  ⟨"when someone emails me and is not in hubspot, create a contact"⟩

def instructionB : StoredInstruction :=
  ⟨"when anyone emails us who is not in hubspot, create a contact with a note"⟩

/-- A dispatch oracle under which the action for `instructionA` throws and
every other action succeeds. -/
def failFirstDispatch : InstructionMatch → Bool :=
  fun m => m.instruction.instruction != instructionA.instruction

def meetingQuery : String := "Schedule meeting with Jane on 16th July at 2pm"

/-- A response that narrates success without any parseable call. -/
def meetingClaimResponse : String := "The meeting has been scheduled."

/-- What the availability heuristic synthesizes for `meetingQuery`. -/
def heuristicAvailabilityCall : ToolCall :=
  ⟨"get_available_times", jobj [("date", jstr "16th July"), ("duration", jnum 60)]⟩

/-- What the meeting heuristic synthesizes for `meetingQuery`: note the
`time` parameter. -/
def heuristicMeetingCall : ToolCall :=
  ⟨"schedule_meeting_with_contact",
   jobj [("contactName", jstr "Jane"), ("title", jstr "Meeting with Jane"),
         ("description", jstr "Scheduled meeting"), ("date", jstr "16th July"),
         ("time", jstr "16")]⟩

def acceptedSendEmailCall : ToolCall :=
  ⟨"send_email", jobj [("to", jstr "bob@realcompany.io"), ("subject", jstr "Hi"),
                       ("body", jstr "Hello")]⟩

def placeholderSendEmailCall : ToolCall :=
  ⟨"send_email", jobj [("to", jstr "bob@example.com"), ("subject", jstr "Hi"),
                       ("body", jstr "Hello")]⟩

def bracketEmailContactCall : ToolCall :=
  ⟨"create_contact", jobj [("email", jstr "[Email Address]")]⟩

def acceptedContactCall : ToolCall :=
  ⟨"create_contact", jobj [("email", jstr "a@b.com"), ("firstName", jstr "Jane")]⟩

/-- An unknown tool whose `to` field carries a placeholder token. -/
def unknownToolPlaceholderCall : ToolCall :=
  ⟨"custom_tool", jobj [("to", jstr "[Email Address]")]⟩

def unknownToolBenignCall : ToolCall :=
  ⟨"custom_tool", jobj [("x", jstr "y")]⟩

def overUnityQuery : String := "schedule meeting"

def conditionalQuery : String := "when someone emails me, create a contact"

def conditionalRagResponse : String := "Understood."

/-! # Theorems -/

set_option maxRecDepth 1000000
set_option maxHeartbeats 4000000

theorem splitOnChar_ne_nil (sep : Char) (cs : List Char) :
    splitOnChar sep cs ≠ [] := by
  induction cs with
  | nil => simp [splitOnChar]
  | cons c cs ih =>
    simp only [splitOnChar]
    cases h : splitOnChar sep cs with
    | nil => exact absurd h ih
    | cons a t => by_cases hc : c = sep <;> simp [hc]

theorem jsSplit_length_pos (s : String) (sep : Char) :
    0 < (jsSplit s sep).length := by
  unfold jsSplit
  have h := splitOnChar_ne_nil sep s.toList
  cases hs : splitOnChar sep s.toList with
  | nil => exact absurd hs h
  | cons a t => simp [hs]

theorem queryWordCount_pos (s : String) : 0 < queryWordCount s :=
  jsSplit_length_pos s ' '

/-- Every call kept by `validateToolCalls` passed `validateSingleToolCall`. -/
theorem mem_validateToolCalls {c : ToolCall} {l : List ToolCall}
    (h : c ∈ validateToolCalls l) : (validateSingleToolCall c).valid = true :=
  (List.mem_filter.mp h).2

/-- Every match on which `dispatchMatches` invokes the executor cleared the
0.7 confidence threshold. -/
theorem dispatchMatches_confidence (dispatch : InstructionMatch → Bool) :
    ∀ (ms : List InstructionMatch) (m : InstructionMatch),
      m ∈ (dispatchMatches dispatch ms).1 → mkRat 7 10 < m.confidence := by
  intro ms
  induction ms with
  | nil => intro m hm; cases hm
  | cons x xs ih =>
    intro m hm
    unfold dispatchMatches at hm
    by_cases hx : mkRat 7 10 < x.confidence
    · rw [if_pos hx] at hm
      cases hd : dispatch x with
      | true =>
        rw [hd] at hm
        simp only [if_pos] at hm
        rcases List.mem_cons.mp hm with h | h
        · exact h ▸ hx
        · exact ih m h
      | false =>
        rw [hd] at hm
        simp only [Bool.false_eq_true, if_neg] at hm
        rcases List.mem_singleton.mp hm with h
        exact h ▸ hx
    · rw [if_neg hx] at hm
      exact ih m hm

/-- When every dispatch succeeds, exactly the matches above the threshold
are executed (no early exit). -/
theorem dispatchMatches_total (dispatch : InstructionMatch → Bool) :
    ∀ (ms : List InstructionMatch), (∀ m ∈ ms, dispatch m = true) →
      (dispatchMatches dispatch ms).1 =
        ms.filter (fun m => decide (mkRat 7 10 < m.confidence)) := by
  intro ms
  induction ms with
  | nil => intro _; rfl
  | cons x xs ih =>
    intro hall
    have hx := hall x (List.mem_cons_self x xs)
    have hxs : ∀ m ∈ xs, dispatch m = true :=
      fun m hm => hall m (List.mem_cons_of_mem x hm)
    unfold dispatchMatches
    by_cases hconf : mkRat 7 10 < x.confidence
    · rw [if_pos hconf, hx]
      simp only [if_pos]
      rw [List.filter_cons, ih hxs]
      simp [hconf]
    · rw [if_neg hconf, List.filter_cons, ih hxs]
      simp [hconf]

/-- C1: the claim that every parser-produced tool call passes through the
validator before execution fails on the webhook path: `handleGmailMessage`
executes the first call returned by `analyzeProactiveAction`, which parses
the LLM response and never validates; here that call is one the validator
rejects. -/
theorem C1_counterexample :
    handleGmailMessageProactiveCalls webhookInstructionTexts webhookLeakResponse =
      [invalidContactCall] ∧
    (validateSingleToolCall invalidContactCall).valid = false ∧
    (validateSingleToolCall invalidContactCall).reason = some "Invalid or missing email address" :=
  ⟨rfl, rfl, rfl⟩

/-- C1 (amended): in the user-query pipeline the invariant holds — every
tool call `generateRAGResponse` hands to the execution loop has passed
`validateSingleToolCall` — while the webhook proactive path executes the
parsed call without validation. -/
theorem C1_theorem (response query : String) (c : ToolCall)
    (hc : c ∈ generateRAGResponseToolCalls response query) :
    (validateSingleToolCall c).valid = true := by
  unfold generateRAGResponseToolCalls validateToolCalls at hc
  exact (List.mem_filter.mp hc).2

/-- Witness for C1: a concrete response whose single parsed call survives
validation and is indeed valid. -/
theorem C1_witness :
    getAllContactsLimit5Call ∈
      generateRAGResponseToolCalls ragWitnessResponse ragWitnessQuery ∧
    (validateSingleToolCall getAllContactsLimit5Call).valid = true := by
  have h : generateRAGResponseToolCalls ragWitnessResponse ragWitnessQuery =
      [getAllContactsLimit5Call] := rfl
  constructor
  · rw [h]; exact List.mem_singleton_self _
  · exact C1_theorem ragWitnessResponse ragWitnessQuery getAllContactsLimit5Call
      (by rw [h]; exact List.mem_singleton_self _)

/-- C2: the independence half of the claim fails.  Both instructions match
the event with confidence 0.9 (above the threshold), but when the dispatch
of the first match throws, the loop aborts: the second qualifying match is
never dispatched and the error escapes to the event-level catch. -/
theorem C2_counterexample :
    (analyzeEventAgainstInstructions newEmailContext [instructionA, instructionB]).map
        (fun m => (m.instruction.instruction, m.confidence)) =
      [(instructionA.instruction, mkRat 9 10), (instructionB.instruction, mkRat 9 10)] ∧
    ((handleProactiveEvent newEmailContext [instructionA, instructionB] failFirstDispatch).1).map
        (fun m => m.instruction.instruction) = [instructionA.instruction] ∧
    (handleProactiveEvent newEmailContext [instructionA, instructionB] failFirstDispatch).2 = true :=
  ⟨rfl, rfl, rfl⟩

/-- C2 (amended): only matches with confidence strictly above 0.7 are ever
dispatched, and when no dispatch fails all qualifying matches are executed;
but dispatches are not independently try/caught — a failing dispatch aborts
the remaining qualifying matches for the event. -/
theorem C2_theorem (dispatch : InstructionMatch → Bool)
    (ms : List InstructionMatch) :
    (∀ m ∈ (dispatchMatches dispatch ms).1, mkRat 7 10 < m.confidence) ∧
    ((∀ m ∈ ms, dispatch m = true) →
      (dispatchMatches dispatch ms).1 =
        ms.filter (fun m => decide (mkRat 7 10 < m.confidence))) :=
  ⟨fun m hm => dispatchMatches_confidence dispatch ms m hm,
   fun h => dispatchMatches_total dispatch ms h⟩

/-- Witness for C2: with an always-succeeding dispatch, the executed
matches for the concrete event are exactly the above-threshold ones. -/
theorem C2_witness :
    (dispatchMatches (fun _ => true)
      (analyzeEventAgainstInstructions newEmailContext [instructionA, instructionB])).1 =
      (analyzeEventAgainstInstructions newEmailContext [instructionA, instructionB]).filter
        (fun m => decide (mkRat 7 10 < m.confidence)) :=
  (C2_theorem (fun _ => true)
    (analyzeEventAgainstInstructions newEmailContext [instructionA, instructionB])).2
    (fun _ _ => rfl)

/-- C3: the claim fails — a fenced leaked block containing `tool`,
`parameters` and `response` keys yields two ToolCalls, because stage 1
extracts the echoed sub-object and the fenced-block scan accepts the block
again (the `response`-key skip is shadowed by the `tool && parameters`
check). -/
theorem C3_counterexample :
    strIncludes leakedFencedResponse "\"tool\":" = true ∧
    strIncludes leakedFencedResponse "\"response\":" = true ∧
    (parseEnhancedToolCalls leakedFencedResponse none none).length = 2 :=
  ⟨rfl, rfl, rfl⟩

/-- C3 (amended): the parser never fabricates a call from the `response`
payload — every emitted call is the echoed sub-object — and an unfenced
leak yields exactly one call, while a fenced block with only a `response`
key is skipped; but a fenced leaked block is emitted twice (once by the
stage-1 guard, once by the block scan). -/
theorem C3_theorem :
    parseEnhancedToolCalls leakedFencedResponse none none =
      [getAllContactsLimit5Call, getAllContactsLimit5Call] ∧
    parseEnhancedToolCalls leakedPlainResponse none none = [getAllContactsLimit5Call] ∧
    parseEnhancedToolCalls responseOnlyFencedResponse none none = [] :=
  ⟨rfl, rfl, rfl⟩

/-- C5: at the failing input the compensating heuristics do produce a
`schedule_meeting_with_contact` call with `contactName` "Jane" and `date`
"16th July", but the `time` parameter is "16" — the time regex latches onto
the digits of the date — not "2pm"; downstream, `new Date("16th JulyT16")`
and `new Date("16th July 16")` are both invalid, so the executor falls back
to its tomorrow-at-14:00 default rather than a July 16 date. -/
theorem C5_theorem :
    parseEnhancedToolCalls meetingClaimResponse (some (analyzeQueryIntent meetingQuery))
        (some meetingQuery) = [heuristicAvailabilityCall, heuristicMeetingCall] ∧
    jget heuristicMeetingCall.parameters "contactName" = some (jstr "Jane") ∧
    jget heuristicMeetingCall.parameters "date" = some (jstr "16th July") ∧
    jget heuristicMeetingCall.parameters "time" = some (jstr "16") :=
  ⟨rfl, rfl, rfl, rfl⟩

/-- C8: the instruction matcher scores the stored instruction against the
new-email event with confidence exactly 0.9 and extracts the sender email
into `extractedParams.email`. -/
theorem C8_theorem :
    (analyzeInstructionMatch newEmailContext hubspotInstruction).confidence = mkRat 9 10 ∧
    (analyzeInstructionMatch newEmailContext hubspotInstruction).extractedParams =
      [("action", jstr "create_contact_from_email"), ("email", jstr "x@y.com"),
       ("firstName", jstr "X"), ("lastName", jstr "Y"),
       ("emailSubject", jundef), ("emailContent", jundef)] :=
  ⟨rfl, rfl⟩

/-- C4: the claim fails — for a query with no keyword hit and no boost the
classifier returns type "question", not "general": `find` always succeeds on
the all-zero tie, picking the first table key, so the `|| 'general'`
fallback is unreachable.  Confidence is 0.1 as claimed. -/
theorem C4_counterexample :
    (analyzeQueryIntent "zzz").type = "question" ∧
    (analyzeQueryIntent "zzz").type ≠ "general" ∧
    (analyzeQueryIntent "zzz").confidence = mkRat 1 10 :=
  ⟨rfl, by decide, rfl⟩

/-- C4 (amended): the classifier is a total Lean function (the source never
throws), and for every query whose boosted scores are all zero (no keyword
hit, no boost) and which contains no contact-listing phrase, it returns the
first table key "question" with confidence 0.1, no contact flags and no
conditional-instruction flag. -/
theorem C4_theorem (query : String)
    (hs : boostedScores query = intentKeywords.map (fun p => (p.1, 0)))
    (hcq : contactQueries.any (fun phrase => strIncludes (jsToLower query) phrase) = false) :
    analyzeQueryIntent query =
      { type := "question", confidence := mkRat 1 10,
        keywords := ["who", "what", "when", "where", "why", "how", "which", "?"],
        isContactQuery := false, contactQueryType := none,
        isConditionalInstruction := false } := by
  unfold analyzeQueryIntent maxScoreOf
  simp only [hs, hcq]
  rfl

/-- Witness for C4: the query "zzz" has all-zero scores and lands on
"question" with confidence 0.1. -/
theorem C4_witness :
    boostedScores "zzz" = intentKeywords.map (fun p => (p.1, 0)) ∧
    contactQueries.any (fun phrase => strIncludes (jsToLower "zzz") phrase) = false ∧
    analyzeQueryIntent "zzz" =
      { type := "question", confidence := mkRat 1 10,
        keywords := ["who", "what", "when", "where", "why", "how", "which", "?"],
        isContactQuery := false, contactQueryType := none,
        isConditionalInstruction := false } :=
  ⟨rfl, rfl, C4_theorem "zzz" rfl rfl⟩

/-- C6: a `send_email` call whose `to` field contains any of the critical
placeholder tokens (case-insensitively) is rejected with the
placeholder-related reason; the concrete call with a real recipient is
accepted; and, absent placeholder hits in `to`, a `send_email` call with
string-typed fields is valid exactly when it has a recipient (`to` or
`contactName`), `to` contains "@" when present, and subject and body are
non-blank. -/
theorem C6_theorem :
    (∀ toAddr subject body : String,
      criticalPlaceholders.any (fun t => strIncludesCI toAddr t) = true →
      validateSingleToolCall ⟨"send_email",
        jobj [("to", jstr toAddr), ("subject", jstr subject), ("body", jstr body)]⟩ =
        ⟨false, some "Email recipient contains placeholder values"⟩) ∧
    validateSingleToolCall acceptedSendEmailCall = ⟨true, none⟩ ∧
    (∀ toAddr cn subj body : String,
      criticalPlaceholders.any (fun t => strIncludesCI toAddr t) = false →
      ((validateSingleToolCall ⟨"send_email",
          jobj [("to", jstr toAddr), ("contactName", jstr cn), ("subject", jstr subj),
                ("body", jstr body)]⟩).valid = true ↔
        (toAddr ≠ "" ∨ cn ≠ "") ∧ (toAddr ≠ "" → strIncludes toAddr "@" = true) ∧
        jsTrim subj ≠ "" ∧ jsTrim body ≠ "")) := by
  refine ⟨?_, rfl, ?_⟩
  · intro toAddr subject body h
    by_cases hto : toAddr = ""
    · subst hto; exact absurd h (by decide)
    · unfold validateSingleToolCall
      simp [jgetD, jget, jsToFieldString, jtruthy, jstrVal, hto, h]
  · intro toAddr cn subj body h
    have htr : jsTrim "" = "" := rfl
    by_cases hto : toAddr = "" <;> by_cases hcn : cn = "" <;>
      by_cases hsubj : subj = "" <;> by_cases hbody : body = "" <;>
        simp [validateSingleToolCall, jgetD, jget, jsToFieldString, jtruthy, jstrVal,
              jisString, hto, hcn, hsubj, hbody, htr, h] <;>
        aesop

/-- Witness for C6: the placeholder recipient `bob@example.com` hits the
`example.com` token and is rejected; the real recipient passes the screen
and its call satisfies the validity characterization. -/
theorem C6_witness :
    criticalPlaceholders.any (fun t => strIncludesCI "bob@example.com" t) = true ∧
    validateSingleToolCall placeholderSendEmailCall =
      ⟨false, some "Email recipient contains placeholder values"⟩ ∧
    criticalPlaceholders.any (fun t => strIncludesCI "bob@realcompany.io" t) = false ∧
    ((validateSingleToolCall ⟨"send_email",
        jobj [("to", jstr "bob@realcompany.io"), ("contactName", jstr ""),
              ("subject", jstr "Hi"), ("body", jstr "Hello")]⟩).valid = true ↔
      (("bob@realcompany.io" : String) ≠ "" ∨ ("" : String) ≠ "") ∧
      (("bob@realcompany.io" : String) ≠ "" → strIncludes "bob@realcompany.io" "@" = true) ∧
      jsTrim "Hi" ≠ "" ∧ jsTrim "Hello" ≠ "") :=
  ⟨rfl, C6_theorem.1 "bob@example.com" "Hi" "Hello" rfl, rfl,
   C6_theorem.2.2 "bob@realcompany.io" "" "Hi" "Hello" rfl⟩

/-- C7: the claim that unknown tool names pass through as valid fails in
general — the generic placeholder screen runs before the per-tool switch,
so an unknown tool whose `to` field carries a placeholder token is
rejected. -/
theorem C7_counterexample :
    knownToolNames.contains "custom_tool" = false ∧
    (validateSingleToolCall unknownToolPlaceholderCall).valid = false ∧
    (validateSingleToolCall unknownToolPlaceholderCall).reason =
      some "Email recipient contains placeholder values" :=
  ⟨rfl, rfl, rfl⟩

/-- C7 (amended): `create_contact` with the bracketed placeholder email is
rejected and the concrete real-data call is accepted; with string-typed
fields its validity is exactly: email contains "@", no brackets in the
email, no `example.com`, at least one non-empty name, and no brackets in a
non-empty name; and a call with an unknown tool name is valid provided its
`to` field clears the generic placeholder screen. -/
theorem C7_theorem :
    validateSingleToolCall bracketEmailContactCall =
      ⟨false, some "Invalid or missing email address"⟩ ∧
    validateSingleToolCall acceptedContactCall = ⟨true, none⟩ ∧
    (∀ email fn ln : String,
      (validateSingleToolCall ⟨"create_contact",
          jobj [("email", jstr email), ("firstName", jstr fn), ("lastName", jstr ln)]⟩).valid
        = (strIncludes email "@" && !strIncludes email "[" && !strIncludes email "]" &&
           !strIncludes email "example.com" &&
           (decide (fn ≠ "") || decide (ln ≠ "")) &&
           !(decide (fn ≠ "") && (strIncludes fn "[" || strIncludes fn "]")) &&
           !(decide (ln ≠ "") && (strIncludes ln "[" || strIncludes ln "]")))) ∧
    (∀ (name : String) (params : JVal),
      knownToolNames.contains name = false →
      criticalPlaceholders.any
        (fun t => strIncludesCI (jsToFieldString (jgetD params "to")) t) = false →
      validateSingleToolCall ⟨name, params⟩ = ⟨true, none⟩) := by
  refine ⟨rfl, rfl, ?_, ?_⟩
  · intro email fn ln
    have h0 : strIncludes "" "@" = false := rfl
    by_cases hem : email = "" <;> by_cases hfn : fn = "" <;> by_cases hln : ln = "" <;>
      simp [validateSingleToolCall, jgetD, jget, jsToFieldString, jtruthy, jstrVal,
            hem, hfn, hln, h0] <;>
      (try split_ifs) <;>
      (try exact absurd ‹∃ x ∈ criticalPlaceholders, strIncludesCI "" x = true› (by decide)) <;>
      intros <;> (try casesm* _ ∨ _) <;> simp_all
  · intro name params hn h
    simp [knownToolNames] at hn
    obtain ⟨h1, h2, h3, h4, h5, h6, h7, h8⟩ := hn
    unfold validateSingleToolCall
    simp [h, h1, h2, h3, h4, h5, h6, h7, h8]

/-- Witness for C7: a benign unknown-tool call clears the screen and passes
through as valid. -/
theorem C7_witness :
    knownToolNames.contains "custom_tool" = false ∧
    criticalPlaceholders.any
      (fun t => strIncludesCI (jsToFieldString (jgetD (jobj [("x", jstr "y")]) "to")) t)
      = false ∧
    validateSingleToolCall unknownToolBenignCall = ⟨true, none⟩ :=
  ⟨rfl, rfl, C7_theorem.2.2.2 "custom_tool" (jobj [("x", jstr "y")]) rfl rfl⟩

/-- The confidence quotient of two positive naturals is positive. -/
theorem jsDiv_natCast_pos (m w : Nat) (hm : 0 < m) (hw : 0 < w) :
    0 < jsDiv (m : Rat) (w : Rat) := by
  unfold jsDiv
  rw [if_neg (by simp [Rat.num_natCast])]
  simp only [Rat.num_natCast, Rat.den_natCast, Int.natAbs_ofNat, Nat.cast_one,
             Int.mul_one, Nat.one_mul]
  refine lt_of_le_of_ne (Rat.mkRat_nonneg (Int.natCast_nonneg m) w) ?_
  symm
  rw [Ne, Rat.mkRat_eq_zero (Nat.pos_iff_ne_zero.mp hw)]
  exact Int.natCast_ne_zero.mpr (Nat.pos_iff_ne_zero.mp hm)

/-- C9: the claim fails in its range part — the confidence can exceed 1,
since the score counts substring hits (plus boosts) and can be larger than
the word count. -/
theorem C9_counterexample :
    (analyzeQueryIntent overUnityQuery).confidence = mkRat 3 2 ∧
    ¬((analyzeQueryIntent overUnityQuery).confidence ≤ 1) :=
  ⟨rfl, by decide⟩

/-- C9 (amended): the confidence is `maxScore / wordCount` when the maximal
boosted score is positive and 0.1 otherwise; it is always strictly
positive, but it is not bounded by 1. -/
theorem C9_theorem (query : String) :
    0 < (analyzeQueryIntent query).confidence ∧
    (0 < maxScoreOf query →
      (analyzeQueryIntent query).confidence =
        jsDiv (maxScoreOf query : Rat) (queryWordCount (jsToLower query) : Rat)) ∧
    (maxScoreOf query = 0 → (analyzeQueryIntent query).confidence = mkRat 1 10) := by
  have hw : 0 < queryWordCount (jsToLower query) := queryWordCount_pos _
  by_cases h : 0 < maxScoreOf query
  · have hc : (analyzeQueryIntent query).confidence =
        jsDiv (maxScoreOf query : Rat) (queryWordCount (jsToLower query) : Rat) := by
      unfold analyzeQueryIntent
      simp [h]
    refine ⟨?_, fun _ => hc, fun h0 => absurd h (by omega)⟩
    rw [hc]
    exact jsDiv_natCast_pos _ _ h hw
  · have h0 : maxScoreOf query = 0 := by omega
    have hc : (analyzeQueryIntent query).confidence = mkRat 1 10 := by
      unfold analyzeQueryIntent
      simp [h]
    exact ⟨by rw [hc]; decide, fun hp => absurd hp h, fun _ => hc⟩

/-- Witness for C9: for "schedule meeting" the maximal score 3 is positive
and the confidence is 3/2, the quotient by the word count 2. -/
theorem C9_witness :
    0 < maxScoreOf overUnityQuery ∧
    (analyzeQueryIntent overUnityQuery).confidence =
      jsDiv (maxScoreOf overUnityQuery : Rat)
        (queryWordCount (jsToLower overUnityQuery) : Rat) :=
  ⟨by decide, (C9_theorem overUnityQuery).2.1 (by decide)⟩

/-- C10: a query classified as a conditional instruction that hits none of
the direct fast paths is persisted verbatim as an active
`OngoingInstruction`, the tool-call list is emptied before the execution
loop, and nothing is executed. -/
theorem C10_theorem (query ragResponse : String)
    (h1 : routeIsMeetingSchedulingQuery query = false)
    (h2 : routeContactsWithNotesPhrases.any (fun p => strIncludes (jsToLower query) p) = false)
    (h3 : routeRegularContactPhrases.any (fun p => strIncludes (jsToLower query) p) = false)
    (h4 : (analyzeQueryIntent query).isConditionalInstruction = true) :
    postQueryRoute query ragResponse =
      { storedInstructions := [(query, true)], executedToolCalls := [],
        directExecutions := [] } := by
  simp only [postQueryRoute, h1, h2, h3, h4]
  simp

/-- Witness for C10: the canonical conditional-instruction query takes the
persist-and-clear branch. -/
theorem C10_witness :
    routeIsMeetingSchedulingQuery conditionalQuery = false ∧
    routeContactsWithNotesPhrases.any
      (fun p => strIncludes (jsToLower conditionalQuery) p) = false ∧
    routeRegularContactPhrases.any
      (fun p => strIncludes (jsToLower conditionalQuery) p) = false ∧
    (analyzeQueryIntent conditionalQuery).isConditionalInstruction = true ∧
    postQueryRoute conditionalQuery conditionalRagResponse =
      { storedInstructions := [(conditionalQuery, true)], executedToolCalls := [],
        directExecutions := [] } :=
  ⟨rfl, rfl, rfl, rfl,
   C10_theorem conditionalQuery conditionalRagResponse rfl rfl rfl rfl⟩

end JumpAgent

